import Mathlib

/-!
Verification model of the `solana-delegation-toolkit` SDK (`src/sdk.ts`).

The SDK is a thin transaction-composition layer over the Solana smart-account
program.  This file gives a shallow embedding of:

* the byte-level instruction encodings built by `executeSolTransfer` and
  `executeTokenTransfer` (`Buffer.writeUInt32LE` / `Buffer.writeBigUInt64LE`),
* the `number | BN` amount handling (bn.js 53-bit constructor assertion,
  Node's unsigned-64-bit range check in `writeBigUInt64LE`),
* program-derived-address derivation (`PublicKey.findProgramAddressSync`
  from `@solana/web3.js`: SHA-256 of the seeds plus a bump byte, accepting
  the first candidate that is not a valid ed25519 curve point),
* the transaction objects produced by every composer method, including the
  account lists and the unset fee-payer / recent-blockhash fields,
* the process-global anchor provider registration performed by the
  constructor (`anchor.setProvider`).

Bytes are `Nat` values below 256; buffers are `List Nat`.
-/

/-- A byte buffer, each entry a byte value (0..255). -/
abbrev Bytes := List Nat

/-- A 32-byte public key, as its byte buffer. -/
abbrev PubKey := Bytes

/-- Truncate to an unsigned 32-bit word. -/
def u32 (x : Nat) : Nat := x % 4294967296

/-- Little-endian byte serialization of `v` into `w` bytes
(the layout used by `Buffer.writeUInt32LE` and `Buffer.writeBigUInt64LE`). -/
def natToLEBytes : Nat → Nat → Bytes
  | 0, _ => []
  | w + 1, v => v % 256 :: natToLEBytes w (v / 256)

/-- Read a little-endian byte buffer back into a natural number. -/
def natFromLEBytes : Bytes → Nat
  | [] => 0
  | b :: rest => b + 256 * natFromLEBytes rest

/-- Big-endian byte serialization of `v` into `w` bytes (SHA-256 length field). -/
def natToBEBytes : Nat → Nat → Bytes
  | 0, _ => []
  | w + 1, v => natToBEBytes w (v / 256) ++ [v % 256]

/-- Right rotation of a 32-bit word by `n` bits. -/
def rotr32 (n x : Nat) : Nat := u32 ((x >>> n) ||| (x <<< (32 - n)))

/-- SHA-256 round constants (FIPS 180-4, in decimal). -/
def shaK : List Nat :=
  [1116352408, 1899447441, 3049323471, 3921009573, 961987163,
   1508970993, 2453635748, 2870763221, 3624381080, 310598401,
   607225278, 1426881987, 1925078388, 2162078206, 2614888103,
   3248222580, 3835390401, 4022224774, 264347078, 604807628,
   770255983, 1249150122, 1555081692, 1996064986, 2554220882,
   2821834349, 2952996808, 3210313671, 3336571891, 3584528711,
   113926993, 338241895, 666307205, 773529912, 1294757372,
   1396182291, 1695183700, 1986661051, 2177026350, 2456956037,
   2730485921, 2820302411, 3259730800, 3345764771, 3516065817,
   3600352804, 4094571909, 275423344, 430227734, 506948616,
   659060556, 883997877, 958139571, 1322822218, 1537002063,
   1747873779, 1955562222, 2024104815, 2227730452, 2361852424,
   2428436474, 2756734187, 3204031479, 3329325298]

/-- SHA-256 initial hash state (in decimal). -/
def shaH0 : List Nat :=
  [1779033703, 3144134277, 1013904242, 2773480762,
   1359893119, 2600822924, 528734635, 1541459225]

/-- SHA-256 big sigma 0. -/
def bigSigma0 (x : Nat) : Nat := rotr32 2 x ^^^ rotr32 13 x ^^^ rotr32 22 x

/-- SHA-256 big sigma 1. -/
def bigSigma1 (x : Nat) : Nat := rotr32 6 x ^^^ rotr32 11 x ^^^ rotr32 25 x

/-- SHA-256 small sigma 0. -/
def smallSigma0 (x : Nat) : Nat := rotr32 7 x ^^^ rotr32 18 x ^^^ (x >>> 3)

/-- SHA-256 small sigma 1. -/
def smallSigma1 (x : Nat) : Nat := rotr32 17 x ^^^ rotr32 19 x ^^^ (x >>> 10)

/-- SHA-256 choice function. -/
def shaCh (x y z : Nat) : Nat := (x &&& y) ^^^ ((x ^^^ 0xffffffff) &&& z)

/-- SHA-256 majority function. -/
def shaMaj (x y z : Nat) : Nat := (x &&& y) ^^^ (x &&& z) ^^^ (y &&& z)

/-- Extend 16 message-schedule words by one. -/
def scheduleStep (w : List Nat) (_i : Nat) : List Nat :=
  let L := w.length
  w ++ [u32 (smallSigma1 (w.getD (L - 2) 0) + w.getD (L - 7) 0 +
             smallSigma0 (w.getD (L - 15) 0) + w.getD (L - 16) 0)]

/-- Full 64-word SHA-256 message schedule of one 16-word block. -/
def schedule (block : List Nat) : List Nat :=
  (List.range 48).foldl scheduleStep block

/-- One SHA-256 compression round; the state is the 8-word list [a..h]. -/
def compressRound (s : List Nat) (kw : Nat × Nat) : List Nat :=
  match s with
  | [a, b, c, d, e, f, g, h] =>
    let t1 := u32 (h + bigSigma1 e + shaCh e f g + kw.1 + kw.2)
    let t2 := u32 (bigSigma0 a + shaMaj a b c)
    [u32 (t1 + t2), a, b, c, u32 (d + t1), e, f, g]
  | t => t

/-- Compress one block into the running hash state. -/
def processBlock (hs : List Nat) (block : List Nat) : List Nat :=
  let s := (shaK.zip (schedule block)).foldl compressRound hs
  (hs.zip s).map (fun p => u32 (p.1 + p.2))

/-- SHA-256 padding: 0x80, zeros, 8-byte big-endian bit length. -/
def padMessage (msg : Bytes) : Bytes :=
  msg ++ [128] ++ List.replicate ((119 - msg.length % 64) % 64) 0 ++
    natToBEBytes 8 (8 * msg.length)

/-- Group bytes into big-endian 32-bit words. -/
def bytesToWordsBE : Bytes → List Nat
  | a :: b :: c :: d :: rest =>
      (((a * 256 + b) * 256 + c) * 256 + d) :: bytesToWordsBE rest
  | _ => []

/-- Serialize 32-bit words to big-endian bytes. -/
def wordsToBytesBE (ws : List Nat) : Bytes :=
  ws.flatMap (fun w => [w / 16777216 % 256, w / 65536 % 256, w / 256 % 256, w % 256])

/-- Split a buffer into 64-byte chunks (fuel-based for structural recursion). -/
def chunksAux : Nat → Bytes → List Bytes
  | 0, _ => []
  | _, [] => []
  | fuel + 1, l => l.take 64 :: chunksAux fuel (l.drop 64)

/-- Split a padded message into its 64-byte blocks. -/
def chunks (l : Bytes) : List Bytes := chunksAux l.length l

/-- SHA-256 of a byte buffer. -/
def sha256 (msg : Bytes) : Bytes :=
  wordsToBytesBE
    ((chunks (padMessage msg)).foldl (fun hs b => processBlock hs (bytesToWordsBE b)) shaH0)

/-- Modular exponentiation, square-and-multiply with an accumulator;
`fuel` bounds the number of halvings (256 covers any exponent below 2 ^ 256). -/
def modpowAux : Nat → Nat → Nat → Nat → Nat → Nat
  | 0, acc, _, _, m => acc % m
  | fuel + 1, acc, b, e, m =>
    if e = 0 then acc % m
    else modpowAux fuel (if e % 2 = 1 then acc * b % m else acc) (b * b % m) (e / 2) m

/-- `modpow b e m = b ^ e % m`, for exponents below 2 ^ 256. -/
def modpow (b e m : Nat) : Nat := modpowAux 256 (1 % m) b e m

/-- The ed25519 base field prime 2 ^ 255 - 19. -/
def edP : Nat := 57896044618658097711785492504343953926634992332820282019728792003956564819949

/-- The twisted Edwards curve constant d = -121665 / 121666 of ed25519. -/
def edD : Nat := 37095705934669439343138083508754565189542113879843219016388785533085940283555

/-- A square root of -1 modulo `edP`, namely 2 ^ ((p - 1) / 4). -/
def edSqrtM1 : Nat := 19681161376707505956807079304988542015446066515923890162744021073123829784752

/-- RFC 8032 point decompression check used by `PublicKey.isOnCurve` in
`@solana/web3.js` (via the noble ed25519 `fromHex` routine): interpret the
32 bytes as a little-endian field element with a sign bit, recover x from
the curve equation, and reject when no square root exists (or when x = 0
with the sign bit set, or y is not reduced). -/
def isOnCurve (pk : Bytes) : Bool :=
  let n := natFromLEBytes pk
  let sign := n / 2 ^ 255
  let y := n % 2 ^ 255
  if edP ≤ y then false
  else
    let y2 := y * y % edP
    let xx := (y2 + edP - 1) * modpow ((edD * y2 + 1) % edP) (edP - 2) edP % edP
    let r := modpow xx ((edP + 3) / 8) edP
    let root :=
      if r * r % edP = xx then some r
      else if r * r % edP = (edP - xx) % edP then some (r * edSqrtM1 % edP)
      else none
    match root with
    | none => false
    | some x => !(x = 0 && sign = 1)

/-- The ASCII bytes of the domain marker string appended by
`PublicKey.createProgramAddressSync` before hashing. -/
def pdaMarkerBytes : Bytes :=
  [80, 114, 111, 103, 114, 97, 109, 68, 101, 114, 105, 118, 101, 100,
   65, 100, 100, 114, 101, 115, 115]

/-- Model of `PublicKey.createProgramAddressSync` from `@solana/web3.js`:
hash the concatenated seeds, the program id and the domain marker with
SHA-256, and accept the digest as an address only when it is NOT a valid
ed25519 curve point.  `none` models the thrown `Invalid seeds` error. -/
def createProgramAddress (seeds : List Bytes) (programId : PubKey) : Option PubKey :=
  let digest := sha256 (seeds.flatMap id ++ programId ++ pdaMarkerBytes)
  if isOnCurve digest then none else some digest

/-- Bump-search loop of `PublicKey.findProgramAddressSync`: the fuel value
`n` means the bump byte `n` is tried next, counting down; the loop in the
source runs `while (nonce != 0)` starting from 255, so bump 0 is never
tried and exhaustion models the thrown `Unable to find a viable program
address nonce` error. -/
def findProgramAddressLoop (seeds : List Bytes) (programId : PubKey) :
    Nat → Option (PubKey × Nat)
  | 0 => none
  | n + 1 =>
    match createProgramAddress (seeds ++ [[n + 1]]) programId with
    | some address => some (address, n + 1)
    | none => findProgramAddressLoop seeds programId n

/-- Model of `PublicKey.findProgramAddressSync` from `@solana/web3.js`:
reject over-long seeds (the `Max seed length exceeded` TypeError), then
search bump bytes from 255 down to 1. -/
def findProgramAddressSync (seeds : List Bytes) (programId : PubKey) :
    Option (PubKey × Nat) :=
  if seeds.any (fun s => 32 < s.length) then none
  else findProgramAddressLoop seeds programId 255

/-- The ASCII bytes of the fixed seed literal `"smart"`. -/
def seedSmart : Bytes := [115, 109, 97, 114, 116]

/-- The smart-account program id `73y8v8vVpDDStuVVTwuhUkcuaRpCpnUD5tg7hKcWYa5o`
(from the bundled IDL / README), base58-decoded to its 32 bytes. -/
def smartAccountProgramId : PubKey :=
  [89, 232, 193, 196, 93, 211, 109, 77, 16, 124, 165, 27, 70, 189, 26, 140,
   34, 145, 95, 128, 5, 153, 200, 142, 137, 3, 79, 89, 41, 252, 73, 194]

/-- `SystemProgram.programId` (`11111111111111111111111111111111`): 32 zero bytes. -/
def systemProgramId : PubKey := List.replicate 32 0

/-- `TOKEN_PROGRAM_ID` (`TokenkegQfeZyiNwAJbNbGKPFXCWuBvf9Ss623VQ5DA`), base58-decoded. -/
def tokenProgramId : PubKey :=
  [6, 221, 246, 225, 215, 101, 161, 147, 217, 203, 225, 70, 206, 235, 121, 172,
   28, 180, 133, 237, 95, 91, 55, 145, 58, 140, 245, 133, 126, 255, 0, 169]

/-- `TOKEN_2022_PROGRAM_ID` (`TokenzQdBNbLqP5VEhdkAS6EPFLC1PHnBqCXEpPxuEb`), base58-decoded. -/
def token2022ProgramId : PubKey :=
  [6, 221, 246, 225, 238, 117, 143, 222, 24, 66, 93, 188, 228, 108, 205, 218,
   182, 26, 252, 77, 131, 185, 13, 39, 254, 189, 249, 40, 216, 161, 139, 252]

/-- Anchor instruction discriminators are the first 8 bytes of the SHA-256
of the ASCII string `global:` followed by the snake-case method name. -/
def anchorDiscriminator (nameBytes : Bytes) : Bytes :=
  (sha256 ([103, 108, 111, 98, 97, 108, 58] ++ nameBytes)).take 8

/-- ASCII bytes of the method name `initialize`. -/
def initNameBytes : Bytes := [105, 110, 105, 116, 105, 97, 108, 105, 122, 101]

/-- ASCII bytes of the method name `add_delegate`. -/
def addDelegateNameBytes : Bytes :=
  [97, 100, 100, 95, 100, 101, 108, 101, 103, 97, 116, 101]

/-- ASCII bytes of the method name `remove_delegate`. -/
def removeDelegateNameBytes : Bytes :=
  [114, 101, 109, 111, 118, 101, 95, 100, 101, 108, 101, 103, 97, 116, 101]

/-- ASCII bytes of the method name `pause`. -/
def pauseNameBytes : Bytes := [112, 97, 117, 115, 101]

/-- ASCII bytes of the method name `unpause`. -/
def unpauseNameBytes : Bytes := [117, 110, 112, 97, 117, 115, 101]

/-- ASCII bytes of the method name `execute`. -/
def executeNameBytes : Bytes := [101, 120, 101, 99, 117, 116, 101]

/-- Data of an Anchor method call: discriminator then borsh-encoded arguments. -/
def anchorMethodData (nameBytes args : Bytes) : Bytes :=
  anchorDiscriminator nameBytes ++ args

/-- Data of the `execute(instructionData)` call: the `bytes` argument is
borsh-encoded as a 4-byte little-endian length followed by the payload. -/
def anchorExecuteData (payload : Bytes) : Bytes :=
  anchorMethodData executeNameBytes (natToLEBytes 4 payload.length ++ payload)

/-- The `number | anchor.BN` union of the amount parameters of
`executeSolTransfer` / `executeTokenTransfer`.  `num n` is a JavaScript
number holding the integer value `n`; `bn v` is an `anchor.BN` of value `v`. -/
inductive AmountArg where
  | num : Int → AmountArg
  | bn : Int → AmountArg
deriving DecidableEq

/-- Models `new anchor.BN(n)` on a JavaScript number: bn.js `_initNumber`
asserts that the magnitude is below 2 ^ 53 = 9007199254740992 and throws
otherwise (`none`). -/
def bnFromNumber (n : Int) : Option Int :=
  if n.natAbs < 9007199254740992 then some n else none

/-- Models `typeof x === "number" ? new anchor.BN(x) : x` (sdk.ts lines
185 and 227). -/
def resolveAmountBN : AmountArg → Option Int
  | .num n => bnFromNumber n
  | .bn v => some v

/-- Models `buffer.writeBigUInt64LE(v, offset)`: Node validates
`0 <= v <= 2 ^ 64 - 1` and throws `ERR_OUT_OF_RANGE` otherwise (`none`);
on success the eight written bytes are `v` in little-endian order. -/
def writeBigUInt64LE (v : Int) : Option Bytes :=
  if 0 ≤ v ∧ v < 18446744073709551616 then some (natToLEBytes 8 v.toNat) else none

/-- The 12-byte payload built by `executeSolTransfer` (sdk.ts 184-189):
`Buffer.alloc(12)`, `writeUInt32LE(2, 0)` (the System Program transfer
selector), then `writeBigUInt64LE(BigInt(lamports.toString()), 4)`. -/
def solTransferData (lamports : AmountArg) : Option Bytes :=
  (resolveAmountBN lamports).bind (fun v =>
    (writeBigUInt64LE v).map (fun amt => natToLEBytes 4 2 ++ amt))

/-- The 9-byte payload built by `executeTokenTransfer` (sdk.ts 227-231):
`Buffer.alloc(9)`, `writeUInt8(3, 0)` (the SPL token Transfer selector),
then `writeBigUInt64LE(BigInt(amount.toString()), 1)`. -/
def tokenTransferData (amount : AmountArg) : Option Bytes :=
  (resolveAmountBN amount).bind (fun v =>
    (writeBigUInt64LE v).map (fun amt => 3 :: amt))

/-- One entry of an instruction's account list, as in
`{ pubkey, isSigner, isWritable }`. -/
structure AccountMeta where
  pubkey : PubKey
  isSigner : Bool
  isWritable : Bool
deriving DecidableEq

/-- A composed instruction: target program, ordered account list, payload. -/
structure Instruction where
  programId : PubKey
  keys : List AccountMeta
  data : Bytes
deriving DecidableEq

/-- A web3.js `Transaction` as returned by the Anchor method builder's
`.transaction()`: the instruction list is filled in, while `feePayer` and
`recentBlockhash` stay unset for the caller to fill in before signing. -/
structure Transaction where
  instructions : List Instruction
  feePayer : Option PubKey
  recentBlockhash : Option Bytes
deriving DecidableEq

/-- An abstract handle to a Solana RPC `Connection`. -/
abbrev Conn := Nat

/-- Model of `anchor.AnchorProvider` as constructed by the SDK
constructor: the connection and the dummy wallet's public key (the dummy
wallet's signing callbacks always reject, so no signing state exists). -/
structure Provider where
  connection : Conn
  walletPublicKey : PubKey
deriving DecidableEq

/-- The process-global ambient state of the anchor library: the provider
registered by `anchor.setProvider`. -/
structure AnchorGlobal where
  currentProvider : Option Provider
deriving DecidableEq

/-- The `SmartAccountSDK` instance state: the four fields assigned by the
constructor and never mutated afterwards. -/
structure SmartAccountSDK where
  programId : PubKey
  provider : Provider
  connection : Conn
  userPublicKey : PubKey
deriving DecidableEq

/-- Model of `new SmartAccountSDK(connection, userPublicKey)` (sdk.ts
33-50) as a transition on the anchor global state: the constructor stores
the connection and user key, builds a read-only provider around a dummy
wallet, registers that provider process-wide via `anchor.setProvider`,
and loads the program id from the bundled IDL. -/
def mkSmartAccountSDK (g : AnchorGlobal) (connection : Conn) (userPublicKey : PubKey) :
    SmartAccountSDK × AnchorGlobal :=
  let provider : Provider := { connection := connection, walletPublicKey := userPublicKey }
  ({ programId := smartAccountProgramId
     provider := provider
     connection := connection
     userPublicKey := userPublicKey },
   { g with currentProvider := some provider })

/-- Model of `findSmartAccountPDA` (sdk.ts 57-62):
`PublicKey.findProgramAddressSync([Buffer.from("smart"), owner.toBuffer()], programId)`. -/
def findSmartAccountPDA (sdk : SmartAccountSDK) (owner : PubKey) : Option (PubKey × Nat) :=
  findProgramAddressSync [seedSmart, owner] sdk.programId

/-- Modelled from the spec: the account metas of the `execute`
instruction's core pair come from the Anchor IDL `idl/smart_account.json`,
which is imported by sdk.ts but not present under `src/`.  The spec's
operation table lists the pair as `smart-account address, delegate
(signer)`; the smart account is the writable vault. -/
def executeCoreAccounts (pda delegate : PubKey) : List AccountMeta :=
  [{ pubkey := pda, isSigner := false, isWritable := true },
   { pubkey := delegate, isSigner := true, isWritable := false }]

/-- Model of `initialize(owner?)` (sdk.ts 78-90).  Account metas modelled
from the spec (the flags live in the missing IDL): `smartAccountAddress
(writable), owner (signer), systemProgram (readonly)` in that order.
`none` models a thrown derivation error. -/
def composeInit (sdk : SmartAccountSDK) (owner : Option PubKey) : Option Transaction :=
  (findSmartAccountPDA sdk (owner.getD sdk.userPublicKey)).map (fun pb =>
    { instructions :=
        [{ programId := sdk.programId
           keys := [{ pubkey := pb.1, isSigner := false, isWritable := true },
                    { pubkey := owner.getD sdk.userPublicKey, isSigner := true, isWritable := false },
                    { pubkey := systemProgramId, isSigner := false, isWritable := false }]
           data := anchorMethodData initNameBytes [] }]
      feePayer := none
      recentBlockhash := none })

/-- Model of `addDelegate(delegate, owner?)` (sdk.ts 98-109).  Account
metas modelled from the spec: `smart-account address (writable), owner
(signer)`; the delegate key is the borsh-encoded argument. -/
def addDelegate (sdk : SmartAccountSDK) (delegate : PubKey) (owner : Option PubKey) :
    Option Transaction :=
  (findSmartAccountPDA sdk (owner.getD sdk.userPublicKey)).map (fun pb =>
    { instructions :=
        [{ programId := sdk.programId
           keys := [{ pubkey := pb.1, isSigner := false, isWritable := true },
                    { pubkey := owner.getD sdk.userPublicKey, isSigner := true, isWritable := false }]
           data := anchorMethodData addDelegateNameBytes delegate }]
      feePayer := none
      recentBlockhash := none })

/-- Model of `removeDelegate(delegate, owner?)` (sdk.ts 117-128). -/
def removeDelegate (sdk : SmartAccountSDK) (delegate : PubKey) (owner : Option PubKey) :
    Option Transaction :=
  (findSmartAccountPDA sdk (owner.getD sdk.userPublicKey)).map (fun pb =>
    { instructions :=
        [{ programId := sdk.programId
           keys := [{ pubkey := pb.1, isSigner := false, isWritable := true },
                    { pubkey := owner.getD sdk.userPublicKey, isSigner := true, isWritable := false }]
           data := anchorMethodData removeDelegateNameBytes delegate }]
      feePayer := none
      recentBlockhash := none })

/-- Model of `pause(owner?)` (sdk.ts 135-146). -/
def pause (sdk : SmartAccountSDK) (owner : Option PubKey) : Option Transaction :=
  (findSmartAccountPDA sdk (owner.getD sdk.userPublicKey)).map (fun pb =>
    { instructions :=
        [{ programId := sdk.programId
           keys := [{ pubkey := pb.1, isSigner := false, isWritable := true },
                    { pubkey := owner.getD sdk.userPublicKey, isSigner := true, isWritable := false }]
           data := anchorMethodData pauseNameBytes [] }]
      feePayer := none
      recentBlockhash := none })

/-- Model of `unpause(owner?)` (sdk.ts 153-164). -/
def unpause (sdk : SmartAccountSDK) (owner : Option PubKey) : Option Transaction :=
  (findSmartAccountPDA sdk (owner.getD sdk.userPublicKey)).map (fun pb =>
    { instructions :=
        [{ programId := sdk.programId
           keys := [{ pubkey := pb.1, isSigner := false, isWritable := true },
                    { pubkey := owner.getD sdk.userPublicKey, isSigner := true, isWritable := false }]
           data := anchorMethodData unpauseNameBytes [] }]
      feePayer := none
      recentBlockhash := none })

/-- Model of `executeSolTransfer` (sdk.ts 174-203): derive the PDA, build
the 12-byte system-transfer payload, then compose the `execute` call whose
remaining accounts are `[systemProgram (readonly), smartAccountPDA
(writable), recipient (writable)]` with the literal flags of sdk.ts
197-201. -/
def executeSolTransfer (sdk : SmartAccountSDK)
    (smartAccountOwner delegate recipient : PubKey) (lamports : AmountArg) :
    Option Transaction :=
  (findSmartAccountPDA sdk smartAccountOwner).bind (fun pb =>
    (solTransferData lamports).map (fun d =>
      { instructions :=
          [{ programId := sdk.programId
             keys := executeCoreAccounts pb.1 delegate ++
               [{ pubkey := systemProgramId, isSigner := false, isWritable := false },
                { pubkey := pb.1, isSigner := false, isWritable := true },
                { pubkey := recipient, isSigner := false, isWritable := true }]
             data := anchorExecuteData d }]
        feePayer := none
        recentBlockhash := none }))

/-- Model of `executeTokenTransfer` (sdk.ts 215-248): derive the PDA,
build the 9-byte token-transfer payload, pick the token program
(`TOKEN_2022_PROGRAM_ID` when `useToken2022`, else `TOKEN_PROGRAM_ID`),
then compose the `execute` call whose remaining accounts are
`[tokenProgram (readonly), from (writable), to (writable),
smartAccountPDA (readonly)]` with the literal flags of sdk.ts 241-246. -/
def executeTokenTransfer (sdk : SmartAccountSDK)
    (smartAccountOwner delegate fromTokenAccount toTokenAccount : PubKey)
    (amount : AmountArg) (useToken2022 : Bool) : Option Transaction :=
  (findSmartAccountPDA sdk smartAccountOwner).bind (fun pb =>
    (tokenTransferData amount).map (fun d =>
      { instructions :=
          [{ programId := sdk.programId
             keys := executeCoreAccounts pb.1 delegate ++
               [{ pubkey := if useToken2022 then token2022ProgramId else tokenProgramId,
                  isSigner := false, isWritable := false },
                { pubkey := fromTokenAccount, isSigner := false, isWritable := true },
                { pubkey := toTokenAccount, isSigner := false, isWritable := true },
                { pubkey := pb.1, isSigner := false, isWritable := false }]
             data := anchorExecuteData d }]
        feePayer := none
        recentBlockhash := none }))

/-- Model of `executeCustomInstruction` (sdk.ts 260-280): the payload is
forwarded verbatim and the remaining accounts are the target program
(readonly) followed by the caller-supplied metas. -/
def executeCustomInstruction (sdk : SmartAccountSDK)
    (smartAccountOwner delegate targetProgram : PubKey)
    (instructionData : Bytes) (remainingAccounts : List AccountMeta) :
    Option Transaction :=
  (findSmartAccountPDA sdk smartAccountOwner).map (fun pb =>
    { instructions :=
        [{ programId := sdk.programId
           keys := executeCoreAccounts pb.1 delegate ++
             ({ pubkey := targetProgram, isSigner := false, isWritable := false } ::
              remainingAccounts)
           data := anchorExecuteData instructionData }]
      feePayer := none
      recentBlockhash := none })

/-- Holds when an optional composed transaction leaves the fee payer and
the recent blockhash unset. -/
def fieldsUnset (o : Option Transaction) : Bool :=
  o.all (fun t => t.feePayer.isNone && t.recentBlockhash.isNone)

/-- A concrete SDK instance: constructed over connection handle 0 for the
all-zeros user key, starting from an empty anchor global state. -/
def sdkZero : SmartAccountSDK :=
  (mkSmartAccountSDK { currentProvider := none } 0 (List.replicate 32 0)).1

/-- A second concrete SDK instance over a different connection and user. -/
def sdkOne : SmartAccountSDK :=
  (mkSmartAccountSDK { currentProvider := none } 1 (List.replicate 32 1)).1

/-! ## Support lemmas -/

theorem natToLEBytes_length (w : Nat) : ∀ v, (natToLEBytes w v).length = w := by
  induction w with
  | zero => intro v; rfl
  | succ w ih => intro v; simp [natToLEBytes, ih]

theorem natFromLEBytes_natToLEBytes (w : Nat) :
    ∀ v, v < 256 ^ w → natFromLEBytes (natToLEBytes w v) = v := by
  induction w with
  | zero =>
    intro v hv
    have : v = 0 := Nat.lt_one_iff.mp hv
    simp [this, natToLEBytes, natFromLEBytes]
  | succ w ih =>
    intro v hv
    have hdiv : v / 256 < 256 ^ w := by
      apply Nat.div_lt_of_lt_mul
      calc v < 256 ^ (w + 1) := hv
        _ = 256 * 256 ^ w := by ring
    simp only [natToLEBytes, natFromLEBytes, ih (v / 256) hdiv]
    omega

set_option maxRecDepth 4000 in
/-- Sanity check of the SHA-256 model on the FIPS 180 test vector for `abc`. -/
theorem sha256_abc_vector :
    sha256 [97, 98, 99] =
      [186, 120, 22, 191, 143, 1, 207, 234, 65, 65, 64, 222, 93, 174, 34, 35,
       176, 3, 97, 163, 150, 23, 122, 156, 180, 16, 255, 97, 242, 0, 21, 173] := by
  decide

set_option maxRecDepth 20000 in
/-- Sanity check: the smart-account PDA derivation succeeds on a concrete
owner (the all-zeros key) and yields a definite off-curve address with
bump 255, matching an independent reimplementation of the Solana
derivation. -/
theorem findSmartAccountPDA_zero_owner :
    findSmartAccountPDA sdkZero (List.replicate 32 0) =
      some
        ([110, 121, 59, 73, 72, 148, 79, 246, 127, 44, 182, 119, 171, 1, 199, 223,
          242, 166, 81, 240, 127, 166, 105, 219, 24, 7, 87, 117, 23, 186, 152, 223],
         255) := by
  decide

theorem writeBigUInt64LE_ofNat (v : Nat) (h : v < 18446744073709551616) :
    writeBigUInt64LE (v : Int) = some (natToLEBytes 8 v) := by
  have hrange : (0 : Int) ≤ (v : Int) ∧ (v : Int) < 18446744073709551616 := by
    constructor
    · exact Int.ofNat_nonneg v
    · exact_mod_cast h
  unfold writeBigUInt64LE
  rw [if_pos hrange, Int.toNat_natCast]

theorem writeBigUInt64LE_out (v : Int)
    (h : v < 0 ∨ (18446744073709551616 : Int) ≤ v) :
    writeBigUInt64LE v = none := by
  unfold writeBigUInt64LE
  rw [if_neg (by omega)]

theorem two_pow_64_lit : (2 : Nat) ^ 64 = 18446744073709551616 := by norm_num

/-! ## Claim theorems -/

/-- C1: for every amount v in [0, 2^64-1], the native-transfer payload
built by `executeSolTransfer` is a 12-byte buffer whose first 4 bytes are
the little-endian selector 2 and whose last 8 bytes are v in
little-endian order (they decode back to v as a little-endian integer). -/
theorem solTransfer_encoding (v : Nat) (h : v < 2 ^ 64) :
    solTransferData (AmountArg.bn v) = some (natToLEBytes 4 2 ++ natToLEBytes 8 v)
    ∧ (natToLEBytes 4 2 ++ natToLEBytes 8 v).length = 12
    ∧ (natToLEBytes 4 2 ++ natToLEBytes 8 v).take 4 = [2, 0, 0, 0]
    ∧ natFromLEBytes ((natToLEBytes 4 2 ++ natToLEBytes 8 v).drop 4) = v := by
  rw [two_pow_64_lit] at h
  refine ⟨?_, ?_, rfl, ?_⟩
  · have step : resolveAmountBN (AmountArg.bn (v : Int)) = some (v : Int) := rfl
    unfold solTransferData
    rw [step, Option.some_bind, writeBigUInt64LE_ofNat v h]
    rfl
  · simp [natToLEBytes_length]
  · show natFromLEBytes (natToLEBytes 8 v) = v
    refine natFromLEBytes_natToLEBytes 8 v ?_
    have h8 : (256 : Nat) ^ 8 = 18446744073709551616 := by norm_num
    rw [h8]
    exact h

/-- C1 witness: amount 1 000 000 000 encodes to exactly
02 00 00 00 00 CA 9A 3B 00 00 00 00. -/
theorem solTransfer_encoding_witness :
    solTransferData (AmountArg.bn ((1000000000 : Nat) : Int)) =
      some [2, 0, 0, 0, 0, 202, 154, 59, 0, 0, 0, 0] := by
  have h := solTransfer_encoding 1000000000 (by norm_num)
  rw [h.1]
  decide

/-- C2: for every amount v in [0, 2^64-1], the token-transfer payload
built by `executeTokenTransfer` is a 9-byte buffer whose first byte is the
selector 3 and whose remaining 8 bytes are v in little-endian order. -/
theorem tokenTransfer_encoding (v : Nat) (h : v < 2 ^ 64) :
    tokenTransferData (AmountArg.bn v) = some (3 :: natToLEBytes 8 v)
    ∧ (3 :: natToLEBytes 8 v).length = 9
    ∧ (3 :: natToLEBytes 8 v).take 1 = [3]
    ∧ natFromLEBytes ((3 :: natToLEBytes 8 v).drop 1) = v := by
  rw [two_pow_64_lit] at h
  refine ⟨?_, ?_, rfl, ?_⟩
  · have step : resolveAmountBN (AmountArg.bn (v : Int)) = some (v : Int) := rfl
    unfold tokenTransferData
    rw [step, Option.some_bind, writeBigUInt64LE_ofNat v h]
    rfl
  · simp [natToLEBytes_length]
  · show natFromLEBytes (natToLEBytes 8 v) = v
    refine natFromLEBytes_natToLEBytes 8 v ?_
    have h8 : (256 : Nat) ^ 8 = 18446744073709551616 := by norm_num
    rw [h8]
    exact h

/-- C2 witness: amount 5 000 000 encodes to exactly
03 40 4B 4C 00 00 00 00 00. -/
theorem tokenTransfer_encoding_witness :
    tokenTransferData (AmountArg.bn ((5000000 : Nat) : Int)) =
      some [3, 64, 75, 76, 0, 0, 0, 0, 0] := by
  have h := tokenTransfer_encoding 5000000 (by norm_num)
  rw [h.1]
  decide

theorem amountBind_bn_out (v : Int)
    (h : v < 0 ∨ (18446744073709551616 : Int) ≤ v) (g : Bytes → Bytes) :
    (resolveAmountBN (AmountArg.bn v)).bind (fun x => (writeBigUInt64LE x).map g) = none := by
  have step : resolveAmountBN (AmountArg.bn v) = some v := rfl
  rw [step, Option.some_bind, writeBigUInt64LE_out v h]
  rfl

theorem amountBind_num_out (v : Int)
    (h : v < 0 ∨ (18446744073709551616 : Int) ≤ v) (g : Bytes → Bytes) :
    (resolveAmountBN (AmountArg.num v)).bind (fun x => (writeBigUInt64LE x).map g) = none := by
  by_cases hc : v.natAbs < 9007199254740992
  · have step : resolveAmountBN (AmountArg.num v) = some v := by
      show bnFromNumber v = some v
      unfold bnFromNumber
      rw [if_pos hc]
    rw [step, Option.some_bind, writeBigUInt64LE_out v h]
    rfl
  · have step : resolveAmountBN (AmountArg.num v) = none := by
      show bnFromNumber v = none
      unfold bnFromNumber
      rw [if_neg hc]
    rw [step]
    rfl

/-- C3: amount 0 is accepted by both transfer encoders and yields all-zero
amount bytes; every amount outside [0, 2^64-1] (negative or oversized,
whether passed as a JavaScript number or as a BN) makes the encoding step
reject, and the composer methods then return no transaction at all, so no
network interaction can take place. -/
theorem transfer_amount_bounds (v : Int)
    (h : v < 0 ∨ (2 : Int) ^ 64 ≤ v) :
    solTransferData (AmountArg.bn 0) = some [2, 0, 0, 0, 0, 0, 0, 0, 0, 0, 0, 0]
    ∧ tokenTransferData (AmountArg.bn 0) = some [3, 0, 0, 0, 0, 0, 0, 0, 0]
    ∧ solTransferData (AmountArg.bn v) = none
    ∧ solTransferData (AmountArg.num v) = none
    ∧ tokenTransferData (AmountArg.bn v) = none
    ∧ tokenTransferData (AmountArg.num v) = none
    ∧ (∀ sdk smartAccountOwner delegate recipient,
        executeSolTransfer sdk smartAccountOwner delegate recipient (AmountArg.bn v) = none
        ∧ executeSolTransfer sdk smartAccountOwner delegate recipient (AmountArg.num v) = none)
    ∧ (∀ sdk smartAccountOwner delegate fromTokenAccount toTokenAccount useToken2022,
        executeTokenTransfer sdk smartAccountOwner delegate fromTokenAccount toTokenAccount
          (AmountArg.bn v) useToken2022 = none
        ∧ executeTokenTransfer sdk smartAccountOwner delegate fromTokenAccount toTokenAccount
          (AmountArg.num v) useToken2022 = none) := by
  have hlit : v < 0 ∨ (18446744073709551616 : Int) ≤ v := by
    rcases h with h | h
    · exact Or.inl h
    · refine Or.inr ?_
      have e : (2 : Int) ^ 64 = 18446744073709551616 := by norm_num
      rw [e] at h
      exact h
  have hsolbn : solTransferData (AmountArg.bn v) = none := by
    unfold solTransferData
    exact amountBind_bn_out v hlit _
  have hsolnum : solTransferData (AmountArg.num v) = none := by
    unfold solTransferData
    exact amountBind_num_out v hlit _
  have htokbn : tokenTransferData (AmountArg.bn v) = none := by
    unfold tokenTransferData
    exact amountBind_bn_out v hlit _
  have htoknum : tokenTransferData (AmountArg.num v) = none := by
    unfold tokenTransferData
    exact amountBind_num_out v hlit _
  refine ⟨by decide, by decide, hsolbn, hsolnum, htokbn, htoknum, ?_, ?_⟩
  · intro sdk smartAccountOwner delegate recipient
    constructor
    · unfold executeSolTransfer
      cases hf : findSmartAccountPDA sdk smartAccountOwner with
      | none => rfl
      | some pb => rw [Option.some_bind, hsolbn]; rfl
    · unfold executeSolTransfer
      cases hf : findSmartAccountPDA sdk smartAccountOwner with
      | none => rfl
      | some pb => rw [Option.some_bind, hsolnum]; rfl
  · intro sdk smartAccountOwner delegate fromTokenAccount toTokenAccount useToken2022
    constructor
    · unfold executeTokenTransfer
      cases hf : findSmartAccountPDA sdk smartAccountOwner with
      | none => rfl
      | some pb => rw [Option.some_bind, htokbn]; rfl
    · unfold executeTokenTransfer
      cases hf : findSmartAccountPDA sdk smartAccountOwner with
      | none => rfl
      | some pb => rw [Option.some_bind, htoknum]; rfl

/-- C3 witness: amount 0 encodes with all-zero amount bytes, while the
out-of-range amounts -1 (as BN) and -1 (as JavaScript number) are both
rejected. -/
theorem transfer_amount_bounds_witness :
    solTransferData (AmountArg.bn 0) = some [2, 0, 0, 0, 0, 0, 0, 0, 0, 0, 0, 0]
    ∧ solTransferData (AmountArg.bn (-1)) = none
    ∧ tokenTransferData (AmountArg.num (-1)) = none := by
  have h := transfer_amount_bounds (-1) (Or.inl (by norm_num))
  exact ⟨h.1, h.2.2.1, h.2.2.2.2.2.1⟩

/-- C4: the smart-account address derivation is deterministic: any two SDK
instances configured with the same program identifier derive the identical
(address, bump) pair for the same owner.  The derivation is a pure
function of the owner bytes and the program id: it involves no randomness
and no network call. -/
theorem findSmartAccountPDA_deterministic (sdk1 sdk2 : SmartAccountSDK) (owner : PubKey)
    (h : sdk1.programId = sdk2.programId) :
    findSmartAccountPDA sdk1 owner = findSmartAccountPDA sdk2 owner := by
  unfold findSmartAccountPDA
  rw [h]

/-- C4 witness: two separately constructed SDK instances (different
connections, different user keys) agree on the derived pair for a common
owner. -/
theorem findSmartAccountPDA_deterministic_witness :
    findSmartAccountPDA sdkZero (List.replicate 32 7) =
      findSmartAccountPDA sdkOne (List.replicate 32 7) :=
  findSmartAccountPDA_deterministic sdkZero sdkOne (List.replicate 32 7) rfl

/-- C5: for every owner, `initialize(owner)` composes a transaction with a
single instruction whose account list is exactly [smart-account address
(writable, non-signer), owner (signer, non-writable), system program
(readonly, non-signer)] in that order, where the smart-account address is
the PDA derived from the seed "smart" and that owner; when the derivation
fails no transaction is produced. -/
theorem composeInit_accounts (sdk : SmartAccountSDK) (owner : PubKey) :
    match findSmartAccountPDA sdk owner with
    | some pb =>
        composeInit sdk (some owner) =
          some { instructions :=
                   [{ programId := sdk.programId
                      keys := [{ pubkey := pb.1, isSigner := false, isWritable := true },
                               { pubkey := owner, isSigner := true, isWritable := false },
                               { pubkey := systemProgramId, isSigner := false,
                                 isWritable := false }]
                      data := anchorMethodData initNameBytes [] }]
                 feePayer := none
                 recentBlockhash := none }
    | none => composeInit sdk (some owner) = none := by
  have hg : (some owner).getD sdk.userPublicKey = owner := rfl
  unfold composeInit
  rw [hg]
  cases hf : findSmartAccountPDA sdk owner with
  | none => rfl
  | some pb => rfl

/-- C6: for every owner, delegate, recipient and amount, the instruction
composed by `executeSolTransfer` lists, after the core pair (smart-account
address, delegate as signer), exactly [system program (readonly),
smart-account PDA (writable), recipient (writable)] in that order; when
the derivation or the encoding fails, no transaction is produced. -/
theorem executeSolTransfer_accounts (sdk : SmartAccountSDK)
    (smartAccountOwner delegate recipient : PubKey) (lamports : AmountArg) :
    match findSmartAccountPDA sdk smartAccountOwner, solTransferData lamports with
    | some pb, some d =>
        executeSolTransfer sdk smartAccountOwner delegate recipient lamports =
          some { instructions :=
                   [{ programId := sdk.programId
                      keys := executeCoreAccounts pb.1 delegate ++
                        [{ pubkey := systemProgramId, isSigner := false, isWritable := false },
                         { pubkey := pb.1, isSigner := false, isWritable := true },
                         { pubkey := recipient, isSigner := false, isWritable := true }]
                      data := anchorExecuteData d }]
                 feePayer := none
                 recentBlockhash := none }
    | _, _ =>
        executeSolTransfer sdk smartAccountOwner delegate recipient lamports = none := by
  unfold executeSolTransfer
  cases hf : findSmartAccountPDA sdk smartAccountOwner with
  | none =>
    cases hd : solTransferData lamports with
    | none => rfl
    | some d => rfl
  | some pb =>
    cases hd : solTransferData lamports with
    | none => rfl
    | some d => rfl

/-- C7: for every owner, delegate, source, destination, amount and token
program flag, the instruction composed by `executeTokenTransfer` lists,
after the core pair (smart-account address, delegate as signer), exactly
[token program (readonly), from (writable), to (writable), smart-account
PDA (readonly)] in that order, where the token program is the Token-2022
program exactly when the flag is set; when the derivation or the encoding
fails, no transaction is produced. -/
theorem executeTokenTransfer_accounts (sdk : SmartAccountSDK)
    (smartAccountOwner delegate fromTokenAccount toTokenAccount : PubKey)
    (amount : AmountArg) (useToken2022 : Bool) :
    match findSmartAccountPDA sdk smartAccountOwner, tokenTransferData amount with
    | some pb, some d =>
        executeTokenTransfer sdk smartAccountOwner delegate fromTokenAccount toTokenAccount
            amount useToken2022 =
          some { instructions :=
                   [{ programId := sdk.programId
                      keys := executeCoreAccounts pb.1 delegate ++
                        [{ pubkey := if useToken2022 then token2022ProgramId else tokenProgramId,
                           isSigner := false, isWritable := false },
                         { pubkey := fromTokenAccount, isSigner := false, isWritable := true },
                         { pubkey := toTokenAccount, isSigner := false, isWritable := true },
                         { pubkey := pb.1, isSigner := false, isWritable := false }]
                      data := anchorExecuteData d }]
                 feePayer := none
                 recentBlockhash := none }
    | _, _ =>
        executeTokenTransfer sdk smartAccountOwner delegate fromTokenAccount toTokenAccount
          amount useToken2022 = none := by
  unfold executeTokenTransfer
  cases hf : findSmartAccountPDA sdk smartAccountOwner with
  | none =>
    cases hd : tokenTransferData amount with
    | none => rfl
    | some d => rfl
  | some pb =>
    cases hd : tokenTransferData amount with
    | none => rfl
    | some d => rfl

theorem fieldsUnset_map {α : Type} (o : Option α) (f : α → Transaction)
    (h : ∀ x, (f x).feePayer = none ∧ (f x).recentBlockhash = none) :
    fieldsUnset (o.map f) = true := by
  cases o with
  | none => rfl
  | some x =>
    show ((f x).feePayer.isNone && (f x).recentBlockhash.isNone) = true
    rw [(h x).1, (h x).2]
    rfl

theorem fieldsUnset_bind {α : Type} (o : Option α) (f : α → Option Transaction)
    (h : ∀ x, fieldsUnset (f x) = true) :
    fieldsUnset (o.bind f) = true := by
  cases o with
  | none => rfl
  | some x => exact h x

/-- C8: every composer method returns a transaction whose fee-payer and
recent-blockhash fields are unset; no composition call ever sets those two
fields. -/
theorem composers_leave_unsigned :
    (∀ sdk owner, fieldsUnset (composeInit sdk owner) = true)
    ∧ (∀ sdk delegate owner, fieldsUnset (addDelegate sdk delegate owner) = true)
    ∧ (∀ sdk delegate owner, fieldsUnset (removeDelegate sdk delegate owner) = true)
    ∧ (∀ sdk owner, fieldsUnset (pause sdk owner) = true)
    ∧ (∀ sdk owner, fieldsUnset (unpause sdk owner) = true)
    ∧ (∀ sdk smartAccountOwner delegate recipient lamports,
        fieldsUnset (executeSolTransfer sdk smartAccountOwner delegate recipient lamports) = true)
    ∧ (∀ sdk smartAccountOwner delegate fromTokenAccount toTokenAccount amount useToken2022,
        fieldsUnset (executeTokenTransfer sdk smartAccountOwner delegate fromTokenAccount
          toTokenAccount amount useToken2022) = true)
    ∧ (∀ sdk smartAccountOwner delegate targetProgram instructionData remainingAccounts,
        fieldsUnset (executeCustomInstruction sdk smartAccountOwner delegate targetProgram
          instructionData remainingAccounts) = true) := by
  refine ⟨?_, ?_, ?_, ?_, ?_, ?_, ?_, ?_⟩
  · intro sdk owner
    unfold composeInit
    exact fieldsUnset_map _ _ (fun pb => ⟨rfl, rfl⟩)
  · intro sdk delegate owner
    unfold addDelegate
    exact fieldsUnset_map _ _ (fun pb => ⟨rfl, rfl⟩)
  · intro sdk delegate owner
    unfold removeDelegate
    exact fieldsUnset_map _ _ (fun pb => ⟨rfl, rfl⟩)
  · intro sdk owner
    unfold pause
    exact fieldsUnset_map _ _ (fun pb => ⟨rfl, rfl⟩)
  · intro sdk owner
    unfold unpause
    exact fieldsUnset_map _ _ (fun pb => ⟨rfl, rfl⟩)
  · intro sdk smartAccountOwner delegate recipient lamports
    unfold executeSolTransfer
    exact fieldsUnset_bind _ _ (fun pb => fieldsUnset_map _ _ (fun d => ⟨rfl, rfl⟩))
  · intro sdk smartAccountOwner delegate fromTokenAccount toTokenAccount amount useToken2022
    unfold executeTokenTransfer
    exact fieldsUnset_bind _ _ (fun pb => fieldsUnset_map _ _ (fun d => ⟨rfl, rfl⟩))
  · intro sdk smartAccountOwner delegate targetProgram instructionData remainingAccounts
    unfold executeCustomInstruction
    exact fieldsUnset_map _ _ (fun pb => ⟨rfl, rfl⟩)

/-- C9 counterexample: constructing an SDK instance IS observable in the
process-global anchor state: starting from a state with no registered
provider, `new SmartAccountSDK(connection, userKey)` leaves the global
state changed (its `anchor.setProvider` call registers the fresh
provider), refuting the claim that no ambient configuration is modified
as a side effect of construction. -/
theorem constructor_mutates_global :
    (mkSmartAccountSDK { currentProvider := none } 0 (List.replicate 32 0)).2 ≠
      { currentProvider := none } := by
  decide

/-- C9 amended: the only state retained by an instance across calls is the
read-only field set fixed at construction (program id, provider,
connection, user key), and the only ambient modification performed by
construction is exactly the registration of the newly built provider as
the process-global anchor provider; the rest of the global state is kept
as it was. -/
theorem constructor_global_effect (g : AnchorGlobal) (connection : Conn)
    (userPublicKey : PubKey) :
    (mkSmartAccountSDK g connection userPublicKey).2 =
      { currentProvider := some (mkSmartAccountSDK g connection userPublicKey).1.provider }
    ∧ (mkSmartAccountSDK g connection userPublicKey).1 =
        { programId := smartAccountProgramId
          provider := { connection := connection, walletPublicKey := userPublicKey }
          connection := connection
          userPublicKey := userPublicKey } :=
  ⟨rfl, rfl⟩

/-- C10 counterexample: the two numeric representations of the same u64
value are NOT interchangeable.  At v = 2^53 = 9007199254740992 (an exactly
representable JavaScript integer), the number form is rejected by the
bn.js constructor assertion while the BN form encodes successfully. -/
theorem amount_number_vs_bn :
    solTransferData (AmountArg.num 9007199254740992) = none
    ∧ solTransferData (AmountArg.bn 9007199254740992) =
        some [2, 0, 0, 0, 0, 0, 0, 0, 0, 0, 32, 0] := by
  constructor
  · decide
  · decide

/-- C10 amended: for every u64 value below 2^53 (the bn.js safe-integer
bound), supplying the amount as a JavaScript number and supplying it as a
BN produce exactly the same instruction data, for both transfer
encoders; at and above 2^53 the number form is rejected while the BN form
still encodes (see the counterexample). -/
theorem amount_number_bn_agree (v : Nat) (h : v < 2 ^ 53) :
    solTransferData (AmountArg.num v) = solTransferData (AmountArg.bn v)
    ∧ tokenTransferData (AmountArg.num v) = tokenTransferData (AmountArg.bn v) := by
  have hlit : v < 9007199254740992 := by
    have e : (2 : Nat) ^ 53 = 9007199254740992 := by norm_num
    rw [e] at h
    exact h
  have hres : resolveAmountBN (AmountArg.num (v : Int)) =
      resolveAmountBN (AmountArg.bn (v : Int)) := by
    show bnFromNumber (v : Int) = some (v : Int)
    unfold bnFromNumber
    rw [Int.natAbs_ofNat, if_pos hlit]
  constructor
  · unfold solTransferData
    rw [hres]
  · unfold tokenTransferData
    rw [hres]

/-- C10 amended witness: at v = 1000, the number form and the BN form
yield identical sol-transfer instruction data. -/
theorem amount_number_bn_agree_witness :
    solTransferData (AmountArg.num ((1000 : Nat) : Int)) =
      solTransferData (AmountArg.bn ((1000 : Nat) : Int)) :=
  (amount_number_bn_agree 1000 (by norm_num)).1
